import Mathlib

/-!
Verification of the trend-metric aggregation and labeling engine of the
`predict-food-trends` repository (src/data_processor.py, src/utils.py,
src/predict_service.py), via a shallow embedding in Lean.

Modelling conventions:
* Python floats are embedded as rationals (`ℚ`); decimal literals such as
  `0.3` denote the exact rational they print as.  Timestamps are rationals
  measured in days since the Unix epoch (so `timedelta(days=W)` is `(W : ℚ)`).
* A pandas DataFrame is a `List` of typed records.  A DataFrame built from an
  empty record list has no columns, so indexing any column raises `KeyError`;
  fallible stages are therefore embedded with `Except`.
* `pandas.sort_values` (default quicksort, not stable) is embedded as an
  insertion sort by the same key: no claim depends on the relative order of
  rows with equal keys, and the source uses an unstable sort anyway.
* `sklearn.StandardScaler` divides by the square root of the per-column
  population variance; that square root is the single irrational operation in
  the program and forces `ℝ` (and `noncomputable`) in the feature-preparation
  stage only.  Everything that stage is not the sole consumer of stays in `ℚ`.
-/

/-! ## Numeric helpers (pandas Series reductions) -/

/-- `Series.sum`: sum of a rational column. -/
def sumQ (l : List ℚ) : ℚ := l.foldr (· + ·) 0

/-- `Series.mean`.  (pandas returns NaN on an empty column; every use below is
guarded by a non-emptiness check in the source, so the junk value `0` for the
empty list is never observable.) -/
def meanQ (l : List ℚ) : ℚ := sumQ l / l.length

/-- `Series.max`, as a left fold of binary `max` over the column.  (Junk value
`0` for the empty column, unobservable for the same reason as `meanQ`.) -/
def maxQ : List ℚ → ℚ
  | [] => 0
  | x :: xs => xs.foldl max x

theorem foldl_max_init_le (l : List ℚ) (x : ℚ) : x ≤ l.foldl max x := by
  induction l generalizing x with
  | nil => simp
  | cons y ys ih => exact le_trans (le_max_left x y) (ih (max x y))

theorem le_foldl_max_of_mem {a : ℚ} {l : List ℚ} (x : ℚ) (h : a ∈ l) :
    a ≤ l.foldl max x := by
  induction l generalizing x with
  | nil => cases h
  | cons y ys ih =>
    rcases List.mem_cons.mp h with rfl | h2
    · exact le_trans (le_max_right x a) (foldl_max_init_le ys (max x a))
    · exact ih (max x y) h2

theorem foldl_max_mem (l : List ℚ) (x : ℚ) : l.foldl max x ∈ x :: l := by
  induction l generalizing x with
  | nil => simp
  | cons y ys ih =>
    have h := ih (max x y)
    rcases List.mem_cons.mp h with h1 | h1
    · rcases max_choice x y with hx | hy
      · rw [List.foldl_cons, h1, hx]; exact List.mem_cons_self _ _
      · rw [List.foldl_cons, h1, hy]
        exact List.mem_cons_of_mem _ (List.mem_cons_self _ _)
    · exact List.mem_cons_of_mem _ (List.mem_cons_of_mem _ h1)

theorem maxQ_mem {l : List ℚ} (h : l ≠ []) : maxQ l ∈ l := by
  match l with
  | [] => exact absurd rfl h
  | x :: xs => exact foldl_max_mem xs x

theorem le_maxQ {a : ℚ} {l : List ℚ} (h : a ∈ l) : a ≤ maxQ l := by
  match l with
  | [] => cases h
  | x :: xs =>
    rcases List.mem_cons.mp h with rfl | h2
    · exact foldl_max_init_le xs a
    · exact le_foldl_max_of_mem x h2

/-! ## Data model -/

/-- One row of the flattened per-food-mention dataset built by
`FoodDataProcessor.create_food_dataset` (one record per item-per-document). -/
structure Mention where
  food : String
  score : ℚ
  num_comments : ℚ
  upvote_ratio : ℚ
  engagement_score : ℚ
  created_utc : ℚ
  is_weekend : ℚ
  subreddit : String
deriving DecidableEq

/-- One row of the aggregated metrics DataFrame built by
`FoodDataProcessor.aggregate_food_metrics` (one per item-per-window-length). -/
structure WindowRecord where
  food : String
  window_days : ℕ
  mention_count : ℕ
  avg_score : ℚ
  max_score : ℚ
  avg_comments : ℚ
  avg_engagement : ℚ
  unique_subreddits : ℕ
  weekend_ratio : ℚ
  velocity : ℚ
  growth_rate : ℚ
  avg_upvote_ratio : ℚ
  total_engagement : ℚ
  timestamp : ℚ
deriving DecidableEq

/-! ## Engagement Scorer -/

/-- `FoodDataProcessor.calculate_engagement_score`, per row:
`score * 1.0 + num_comments * 2.0 + upvote_ratio * 100`. -/
def calculate_engagement_score (score num_comments upvote_ratio : ℚ) : ℚ :=
  score * 1.0 + num_comments * 2.0 + upvote_ratio * 100

/-- `utils.calculate_engagement_score(score, comments, upvote_ratio=None)`:
the approval-ratio term is added only when the optional argument is given. -/
def calculate_engagement_score_utils (score comments : ℚ)
    (upvote_ratio : Option ℚ) : ℚ :=
  let engagement := score * 1.0 + comments * 2.0
  match upvote_ratio with
  | some u => engagement + u * 100
  | none => engagement

/-! ## Window Aggregator -/

/-- The dict literal built for one `(food, days)` pair inside the
`for days in [7, 14, 30]` loop of `aggregate_food_metrics`. -/
def window_record (food : String) (days : ℕ) (now : ℚ)
    (recent older : List Mention) : WindowRecord :=
  { food := food
    window_days := days
    mention_count := recent.length
    avg_score := meanQ (recent.map (·.score))
    max_score := maxQ (recent.map (·.score))
    avg_comments := meanQ (recent.map (·.num_comments))
    avg_engagement := meanQ (recent.map (·.engagement_score))
    unique_subreddits := (recent.map (·.subreddit)).dedup.length
    weekend_ratio := meanQ (recent.map (·.is_weekend))
    velocity := (recent.length : ℚ) / (days : ℚ)
    growth_rate :=
      if 0 < older.length then
        ((recent.length : ℚ) - (older.length : ℚ)) / ((max older.length 1 : ℕ) : ℚ)
      else 1
    avg_upvote_ratio := meanQ (recent.map (·.upvote_ratio))
    total_engagement := sumQ (recent.map (·.engagement_score))
    timestamp := now }

/-- The body of the `for food in food_df['food'].unique()` loop: skip the food
when it has fewer than 5 mentions over its whole lifetime, otherwise anchor
`now` to the food's own latest mention and emit one record per window length
whose `recent` partition is non-empty. -/
def food_windows (food : String) (subset : List Mention) : List WindowRecord :=
  if subset.length < 5 then []
  else
    let now := maxQ (subset.map (·.created_utc))
    ([7, 14, 30] : List ℕ).filterMap (fun (days : ℕ) =>
      let cutoff := now - (days : ℚ)
      let recent := subset.filter (fun m => cutoff ≤ m.created_utc)
      let older := subset.filter (fun m => m.created_utc < cutoff)
      if recent.length = 0 then none
      else some (window_record food days now recent older))

/-- `food_df.sort_values('created_utc')`.  (pandas' default quicksort is not
stable; any comparison sort by the same key is a faithful embedding.) -/
def sortMentions (l : List Mention) : List Mention :=
  List.insertionSort (fun a b => a.created_utc ≤ b.created_utc) l

/-- `pandas.Series.unique`: distinct values in order of first appearance. -/
def uniqueFoods : List String → List String
  | [] => []
  | x :: xs => x :: (uniqueFoods xs).filter (fun y => y ≠ x)

theorem mem_uniqueFoods {a : String} : ∀ {l : List String},
    a ∈ uniqueFoods l ↔ a ∈ l
  | [] => Iff.rfl
  | x :: xs => by
    simp only [uniqueFoods, List.mem_cons, List.mem_filter,
      mem_uniqueFoods (l := xs), decide_eq_true_eq]
    by_cases hax : a = x
    · simp [hax]
    · simp [hax]

theorem nodup_uniqueFoods : ∀ (l : List String), (uniqueFoods l).Nodup
  | [] => List.nodup_nil
  | x :: xs => by
    refine List.nodup_cons.mpr ⟨?_, List.Nodup.filter _ (nodup_uniqueFoods xs)⟩
    intro hmem
    have := (List.mem_filter.mp hmem).2
    simp at this

/-- Exceptions that the pipeline stages can raise (plus the spec's designed
`EmptyDataset` signal, which the code never actually produces). -/
inductive PipeError where
  /-- pandas `KeyError`: a column is indexed on an empty, column-less frame. -/
  | keyError
  /-- sklearn `ValueError`: `fit_transform` on an array with 0 samples. -/
  | valueErrorZeroSamples
  /-- the spec's `EmptyDataset` non-fatal report (never raised by the code). -/
  | emptyDataset
deriving DecidableEq

/-- `FoodDataProcessor.aggregate_food_metrics`.  The `window_days=7` parameter
of the source is dead (the loop hardcodes `[7, 14, 30]`) and is dropped here.
An empty `food_df` raises `KeyError` at `sort_values('created_utc')`; when no
food survives the minimum-mentions filter the summary print raises `KeyError`
at `metrics_df['food']` on the empty result frame. -/
def aggregate_food_metrics (food_df : List Mention) :
    Except PipeError (List WindowRecord) :=
  if food_df.isEmpty then .error .keyError
  else
    let sorted := sortMentions food_df
    let metrics := (uniqueFoods (sorted.map (·.food))).flatMap
      (fun food => food_windows food (sorted.filter (fun m => m.food = food)))
    if metrics.isEmpty then .error .keyError
    else .ok metrics

/-! ## Trend Scorer & Labeler -/

/-- `Series.rank(pct=True)` (default `method='average'`, ascending): the rank
of `v` is the number of entries strictly below `v` plus the average 1-based
position inside `v`'s tie group, and `pct=True` divides by the column length. -/
def rankPct (s : List ℚ) (v : ℚ) : ℚ :=
  ((s.countP (fun x => x < v) : ℚ) + ((s.countP (fun x => x = v) : ℚ) + 1) / 2)
    / (s.length : ℚ)

/-- `Series.quantile(0.80)` (default linear interpolation): with the column
sorted ascending as `x_0 ≤ … ≤ x_(n-1)` and `pos = 0.8 * (n - 1)`, the result
is `x_i + (pos - i) * (x_(i+1) - x_i)` for `i = ⌊pos⌋`.  (pandas returns NaN
for an empty column; the junk value `0` here is never consumed, because the
labeler produces no rows at all from an empty population.) -/
def quantile08 (l : List ℚ) : ℚ :=
  let s := List.insertionSort (· ≤ ·) l
  if s.length = 0 then 0
  else
    let pos : ℚ := 0.8 * ((s.length : ℚ) - 1)
    let i : ℕ := (⌊pos⌋).toNat
    s.getD i 0 + (pos - (i : ℚ)) * (s.getD (i + 1) 0 - s.getD i 0)

/-- One labeled row: the original `WindowRecord` columns plus the columns
added by `create_trend_labels`. -/
structure TrendRecord where
  /-- the original columns of the 7-day metrics row (kept by the DataFrame) -/
  base : WindowRecord
  velocity_percentile : ℚ
  growth_percentile : ℚ
  engagement_percentile : ℚ
  trending_score : ℚ
  is_trending : ℕ
deriving DecidableEq

/-- The three `rank(pct=True)` column assignments and the composite
`trending_score = velocity_percentile * 0.3 + growth_percentile * 0.4 +
engagement_percentile * 0.3`, for one row `r` ranked against the population
`pop` (the whole 7-day frame).  `is_trending` is assigned later. -/
def scored_record (pop : List WindowRecord) (r : WindowRecord) : TrendRecord :=
  let vp := rankPct (pop.map (·.velocity)) r.velocity
  let gp := rankPct (pop.map (·.growth_rate)) r.growth_rate
  let ep := rankPct (pop.map (·.avg_engagement)) r.avg_engagement
  { base := r
    velocity_percentile := vp
    growth_percentile := gp
    engagement_percentile := ep
    trending_score := vp * 0.3 + gp * 0.4 + ep * 0.3
    is_trending := 0 }

/-- `metrics_df[metrics_df['window_days'] == 7]`. -/
def seven_day (metrics : List WindowRecord) : List WindowRecord :=
  metrics.filter (fun r => r.window_days = 7)

/-- The 7-day frame with the percentile and composite-score columns added. -/
def scored_records (metrics : List WindowRecord) : List TrendRecord :=
  (seven_day metrics).map (scored_record (seven_day metrics))

/-- `threshold = metrics_df['trending_score'].quantile(0.80)`. -/
def trend_threshold (metrics : List WindowRecord) : ℚ :=
  quantile08 ((scored_records metrics).map (·.trending_score))

/-- `FoodDataProcessor.create_trend_labels`:
`is_trending = (trending_score >= threshold).astype(int)`. -/
def create_trend_labels (metrics : List WindowRecord) : List TrendRecord :=
  (scored_records metrics).map (fun t =>
    { t with is_trending := if trend_threshold metrics ≤ t.trending_score then 1 else 0 })

/-! ## Feature Preparer -/

/-- The fixed ordered `feature_columns` selection of `prepare_features`.
(`fillna(0)` is a no-op here: the `ℚ` embedding has no NaN, and every column
of an aggregated row is a total rational.) -/
def featureVec (r : WindowRecord) : List ℚ :=
  [(r.mention_count : ℚ), r.avg_score, r.max_score, r.avg_comments,
   r.avg_engagement, (r.unique_subreddits : ℚ), r.weekend_ratio,
   r.velocity, r.growth_rate, r.avg_upvote_ratio, r.total_engagement]

/-- Column `j` mean of the feature matrix (sklearn `StandardScaler.mean_`). -/
def colMean (rows : List (List ℚ)) (j : ℕ) : ℚ :=
  meanQ (rows.map (fun r => r.getD j 0))

/-- Column `j` population variance (sklearn `StandardScaler.var_`). -/
def colVar (rows : List (List ℚ)) (j : ℕ) : ℚ :=
  meanQ (rows.map (fun r => (r.getD j 0 - colMean rows j) ^ 2))

/-- Column `j` scale (sklearn `StandardScaler.scale_ = sqrt(var_)`, with a
zero scale replaced by `1`).  The square root is the one irrational operation
of the program, hence the excursion into `ℝ`. -/
noncomputable def colScale (rows : List (List ℚ)) (j : ℕ) : ℝ :=
  if colVar rows j = 0 then 1 else Real.sqrt (colVar rows j)

/-- `StandardScaler.fit_transform`: per entry `(x - mean_j) / scale_j`. -/
noncomputable def standardize (rows : List (List ℚ)) : List (List ℝ) :=
  rows.map (fun r => (List.range 11).map (fun j =>
    (((r.getD j 0 : ℚ) : ℝ) - ((colMean rows j : ℚ) : ℝ)) / colScale rows j))

/-- `FoodDataProcessor.prepare_features`: select the 11 feature columns and the
`is_trending` labels, then `scaler.fit_transform`.  There is no empty-input
check in the source: on a zero-row frame the column selection still succeeds
and sklearn raises `ValueError` (0 samples) inside `fit_transform`. -/
noncomputable def prepare_features (metrics : List TrendRecord) :
    Except PipeError (List (List ℝ) × List ℕ) :=
  let X := metrics.map (fun t => featureVec t.base)
  let y := metrics.map (·.is_trending)
  if X.length = 0 then .error .valueErrorZeroSamples
  else .ok (standardize X, y)

/-! ## Pipeline -/

/-- One raw document row as fetched from the store (external input). -/
structure Doc where
  post_id : String
  subreddit : String
  score : ℚ
  num_comments : ℚ
  upvote_ratio : ℚ
  created_utc : ℚ
  food_mentions : List String
deriving DecidableEq

/-- `extract_temporal_features`' weekend flag: `dayofweek ∈ {5, 6}`, with
timestamps counted in days since the Unix epoch (day 0 = Thursday = 3 in the
pandas Monday-0 convention). -/
def extract_is_weekend (ts : ℚ) : ℚ :=
  if (⌊ts⌋ + 3) % 7 = 5 ∨ (⌊ts⌋ + 3) % 7 = 6 then 1 else 0

/-- The per-document body of `create_food_dataset`: one `Mention` per entry of
`food_mentions`, copying the document's fields (an empty list contributes no
rows, matching the `continue`).  `engagement_score` was written by
`calculate_engagement_score` and `is_weekend` by `extract_temporal_features`
before the flattening step. -/
def doc_mentions (d : Doc) : List Mention :=
  d.food_mentions.map (fun food =>
    { food := food
      score := d.score
      num_comments := d.num_comments
      upvote_ratio := d.upvote_ratio
      engagement_score := calculate_engagement_score d.score d.num_comments d.upvote_ratio
      created_utc := d.created_utc
      is_weekend := extract_is_weekend d.created_utc
      subreddit := d.subreddit })

/-- `FoodDataProcessor.create_food_dataset`. -/
def create_food_dataset (docs : List Doc) : List Mention :=
  docs.flatMap doc_mentions

/-- `FoodDataProcessor.process_pipeline`, from the point where the fetched
frame is in hand: an empty fetch returns the `(None, None, None, None)`
no-result quadruple (modelled as `none`); otherwise the stages run in order
and any raised exception propagates. -/
noncomputable def process_pipeline (docs : List Doc) :
    Except PipeError (Option (List (List ℝ) × List ℕ × List TrendRecord)) :=
  if docs.isEmpty then .ok none
  else
    match aggregate_food_metrics (create_food_dataset docs) with
    | .error e => .error e
    | .ok metrics =>
      let labeled := create_trend_labels metrics
      match prepare_features labeled with
      | .error e => .error e
      | .ok (X, y) => .ok (some (X, y, labeled))

/-! ## Query-by-name single-item evaluation (predict_service.py) -/

/-- One raw post row as fetched for `predict_new_food` (no flattening and no
temporal tagging happen on this path). -/
structure Post where
  score : ℚ
  num_comments : ℚ
  upvote_ratio : ℚ
  subreddit : String
  created_utc : ℚ
deriving DecidableEq

/-- The eleven numeric fields of the `metrics` dict built by
`TrendPredictionService.predict_new_food`. -/
structure PredictMetrics where
  mention_count : ℕ
  avg_score : ℚ
  max_score : ℚ
  avg_comments : ℚ
  avg_engagement : ℚ
  unique_subreddits : ℕ
  weekend_ratio : ℚ
  velocity : ℚ
  growth_rate : ℚ
  avg_upvote_ratio : ℚ
  total_engagement : ℚ
deriving DecidableEq

/-- The `metrics` dict of `predict_new_food` over the fetched posts `df` and
the `days_back` lookback window.  Note `avg_engagement` and
`total_engagement` use `score + num_comments * 2` (no approval-ratio term),
and `weekend_ratio` / `growth_rate` are the fixed placeholders. -/
def predict_new_food_metrics (df : List Post) (days_back : ℕ) : PredictMetrics :=
  { mention_count := df.length
    avg_score := meanQ (df.map (·.score))
    max_score := maxQ (df.map (·.score))
    avg_comments := meanQ (df.map (·.num_comments))
    avg_engagement := meanQ (df.map (fun p => p.score + p.num_comments * 2))
    unique_subreddits := (df.map (·.subreddit)).dedup.length
    weekend_ratio := 0.5
    velocity := (df.length : ℚ) / (days_back : ℚ)
    growth_rate := 0.1
    avg_upvote_ratio := meanQ (df.map (·.upvote_ratio))
    total_engagement := sumQ (df.map (·.score)) + sumQ (df.map (·.num_comments)) * 2 }

/-- How the batch path would turn one of these posts into a `Mention` for item
`food` (engagement scored and temporal features tagged as in the pipeline). -/
def post_to_mention (food : String) (p : Post) : Mention :=
  { food := food
    score := p.score
    num_comments := p.num_comments
    upvote_ratio := p.upvote_ratio
    engagement_score := calculate_engagement_score p.score p.num_comments p.upvote_ratio
    created_utc := p.created_utc
    is_weekend := extract_is_weekend p.created_utc
    subreddit := p.subreddit }

/-! ## Window Aggregator lemmas -/

/-- The `recent` / `older` partition of a food's mentions is exhaustive. -/
theorem recent_older_split (c : ℚ) (l : List Mention) :
    (l.filter (fun m => c ≤ m.created_utc)).length
      + (l.filter (fun m => m.created_utc < c)).length = l.length := by
  induction l with
  | nil => rfl
  | cons m rest ih =>
    by_cases hc : c ≤ m.created_utc
    · simp [List.filter_cons, hc, not_lt.mpr hc]
      omega
    · simp [List.filter_cons, hc, not_le.mp hc]
      omega

/-- Every record emitted by `food_windows` is the `window_record` of one of the
three window lengths, over a subset that passed the minimum-mentions floor. -/
theorem mem_food_windows {food : String} {subset : List Mention}
    {r : WindowRecord} (h : r ∈ food_windows food subset) :
    5 ≤ subset.length ∧
      ∃ days : ℕ, (days = 7 ∨ days = 14 ∨ days = 30) ∧
        (subset.filter (fun m =>
          maxQ (subset.map (·.created_utc)) - (days : ℚ) ≤ m.created_utc)).length ≠ 0 ∧
        r = window_record food days (maxQ (subset.map (·.created_utc)))
          (subset.filter (fun m =>
            maxQ (subset.map (·.created_utc)) - (days : ℚ) ≤ m.created_utc))
          (subset.filter (fun m =>
            m.created_utc < maxQ (subset.map (·.created_utc)) - (days : ℚ))) := by
  by_cases h5 : subset.length < 5
  · rw [food_windows, if_pos h5] at h
    cases h
  · rw [food_windows, if_neg h5] at h
    obtain ⟨days, hdays, heq⟩ := List.mem_filterMap.mp h
    refine ⟨not_lt.mp h5, days, ?_, ?_, ?_⟩
    · simpa using hdays
    · intro h0
      rw [if_pos h0] at heq
      cases heq
    · by_cases h0 : (subset.filter (fun m =>
          maxQ (subset.map (·.created_utc)) - (days : ℚ) ≤ m.created_utc)).length = 0
      · rw [if_pos h0] at heq
        cases heq
      · rw [if_neg h0] at heq
        exact (Option.some.inj heq).symm

/-- Every record emitted for a food carries that food's tag. -/
theorem food_windows_food {food : String} {subset : List Mention}
    {r : WindowRecord} (h : r ∈ food_windows food subset) : r.food = food := by
  obtain ⟨-, days, -, -, rfl⟩ := mem_food_windows h
  rfl

/-- With `now` anchored to the food's own latest mention, the `recent`
partition contains that latest mention for every window length, so it is
never empty. -/
theorem recent_len_ne_zero {subset : List Mention} (hne : subset ≠ [])
    (days : ℕ) :
    (subset.filter (fun m =>
      maxQ (subset.map (·.created_utc)) - (days : ℚ) ≤ m.created_utc)).length ≠ 0 := by
  have hmem : maxQ (subset.map (·.created_utc)) ∈ subset.map (·.created_utc) :=
    maxQ_mem (by simpa using hne)
  obtain ⟨m, hm, hmt⟩ := List.mem_map.mp hmem
  have hpred : maxQ (subset.map (·.created_utc)) - (days : ℚ) ≤ m.created_utc := by
    rw [hmt]
    have : (0 : ℚ) ≤ (days : ℚ) := Nat.cast_nonneg days
    linarith
  have : m ∈ subset.filter (fun m =>
      maxQ (subset.map (·.created_utc)) - (days : ℚ) ≤ m.created_utc) :=
    List.mem_filter.mpr ⟨hm, by simpa using hpred⟩
  intro h0
  rw [List.length_eq_zero.mp h0] at this
  cases this

/-- A food at or above the minimum-mentions floor yields exactly one record
per window length: three records. -/
theorem food_windows_length {food : String} {subset : List Mention}
    (h5 : 5 ≤ subset.length) : (food_windows food subset).length = 3 := by
  have hne : subset ≠ [] := by
    intro h
    rw [h] at h5
    simp at h5
  have h7 := recent_len_ne_zero hne 7
  have h14 := recent_len_ne_zero hne 14
  have h30 := recent_len_ne_zero hne 30
  rw [food_windows, if_neg (not_lt.mpr h5)]
  simp only [List.filterMap_cons, List.filterMap_nil, if_neg h7, if_neg h14, if_neg h30]
  rfl

/-- Every record of a successful aggregation run comes from the per-food loop
body applied to that food's (sorted) mention subset. -/
theorem mem_aggregate {food_df : List Mention} {out : List WindowRecord}
    (hok : aggregate_food_metrics food_df = .ok out) {r : WindowRecord}
    (hr : r ∈ out) :
    ∃ food, food ∈ uniqueFoods ((sortMentions food_df).map (·.food)) ∧
      r ∈ food_windows food ((sortMentions food_df).filter (fun m => m.food = food)) := by
  rw [aggregate_food_metrics] at hok
  by_cases he : food_df.isEmpty
  · rw [if_pos he] at hok
    cases hok
  · rw [if_neg he] at hok
    by_cases hm : ((uniqueFoods ((sortMentions food_df).map (·.food))).flatMap
        (fun food => food_windows food
          ((sortMentions food_df).filter (fun m => m.food = food)))).isEmpty
    · rw [if_pos hm] at hok
      cases hok
    · rw [if_neg hm] at hok
      have hout := Except.ok.inj hok
      rw [← hout] at hr
      exact List.mem_flatMap.mp hr

/-- The sorted per-food subset has as many rows as the food has mentions in
the unsorted stream. -/
theorem subset_count (food_df : List Mention) (food : String) :
    ((sortMentions food_df).filter (fun m => m.food = food)).length
      = food_df.countP (fun m => m.food = food) := by
  rw [← List.countP_eq_length_filter]
  exact List.Perm.countP_eq _ (List.perm_insertionSort _ food_df)

theorem countP_flatMap {α : Type} (p : WindowRecord → Bool)
    (f : α → List WindowRecord) :
    ∀ l : List α, (l.flatMap f).countP p = (l.map (fun a => (f a).countP p)).sum := by
  intro l
  induction l with
  | nil => rfl
  | cons x xs ih =>
    rw [List.flatMap_cons, List.countP_append, List.map_cons, List.sum_cons, ih]

theorem sum_single {l : List String} (hnd : l.Nodup) {f : String} (hf : f ∈ l)
    (g : String → ℕ) (hgf : g f = 3) (h0 : ∀ x ∈ l, x ≠ f → g x = 0) :
    (l.map g).sum = 3 := by
  induction l with
  | nil => cases hf
  | cons x xs ih =>
    obtain ⟨hx, hxs⟩ := List.nodup_cons.mp hnd
    rcases List.mem_cons.mp hf with rfl | hfx
    · rw [List.map_cons, List.sum_cons, hgf]
      have hzero : ∀ y ∈ xs.map g, y = 0 := by
        intro y hy
        obtain ⟨z, hz, rfl⟩ := List.mem_map.mp hy
        exact h0 z (List.mem_cons_of_mem _ hz) (fun hzx => hx (hzx ▸ hz))
      rw [List.sum_eq_zero hzero]
      rfl
    · rw [List.map_cons, List.sum_cons,
        h0 x (List.mem_cons_self _ _) (fun hxf => hx (hxf ▸ hfx))]
      rw [ih hxs hfx (fun z hz hzf => h0 z (List.mem_cons_of_mem _ hz) hzf)]

/-! ## Claims about the Window Aggregator -/

/-- C2: for every input mention stream, an item whose total mention count
across all time is less than 5 never appears in any Window Metrics Record
produced by the Window Aggregator, for any of the configured window
lengths. -/
theorem min_mentions_c2 (food_df : List Mention) (f : String)
    (out : List WindowRecord)
    (hok : aggregate_food_metrics food_df = .ok out)
    (hlt : food_df.countP (fun m => m.food = f) < 5) :
    ∀ r ∈ out, r.food ≠ f := by
  intro r hr hrf
  obtain ⟨food, -, hmem⟩ := mem_aggregate hok hr
  have hfood : r.food = food := food_windows_food hmem
  have h5 : 5 ≤ ((sortMentions food_df).filter (fun m => m.food = food)).length :=
    (mem_food_windows hmem).1
  rw [subset_count] at h5
  rw [hrf] at hfood
  rw [← hfood] at h5
  omega

/-- C3: every emitted Window Metrics Record with recent count `R` and older
count `O` has `growth_rate = (R - O) / max(O, 1)` when `O > 0` and
`growth_rate = 1.0` when `O = 0` (here `O` is recovered as the item's total
mention count minus the record's recent `mention_count`). -/
theorem growth_rate_c3 (food_df : List Mention) (out : List WindowRecord)
    (hok : aggregate_food_metrics food_df = .ok out)
    (r : WindowRecord) (hr : r ∈ out) :
    r.growth_rate =
      if 0 < food_df.countP (fun m => m.food = r.food) - r.mention_count then
        ((r.mention_count : ℚ)
            - ((food_df.countP (fun m => m.food = r.food) - r.mention_count : ℕ) : ℚ))
          / max ((food_df.countP (fun m => m.food = r.food) - r.mention_count : ℕ) : ℚ) 1
      else 1 := by
  obtain ⟨food, -, hmem⟩ := mem_aggregate hok hr
  obtain ⟨h5, days, hdays, hne0, rfl⟩ := mem_food_windows hmem
  have hsplit := recent_older_split
    (maxQ (((sortMentions food_df).filter (fun m => m.food = food)).map (·.created_utc))
      - (days : ℚ))
    ((sortMentions food_df).filter (fun m => m.food = food))
  have hcount := subset_count food_df food
  simp only [window_record]
  have hO : food_df.countP (fun m => m.food = food)
      - (((sortMentions food_df).filter (fun m => m.food = food)).filter
          (fun m => maxQ (((sortMentions food_df).filter
            (fun m => m.food = food)).map (·.created_utc)) - (days : ℚ)
              ≤ m.created_utc)).length
      = (((sortMentions food_df).filter (fun m => m.food = food)).filter
          (fun m => m.created_utc < maxQ (((sortMentions food_df).filter
            (fun m => m.food = food)).map (·.created_utc)) - (days : ℚ))).length := by
    omega
  rw [hO]
  rw [Nat.cast_max, Nat.cast_one]

/-- C4: every emitted Window Metrics Record has
`velocity = mention_count / window_days` — the divisor is the nominal window
length (one of 7, 14, 30 days), never the span of observed history. -/
theorem velocity_c4 (food_df : List Mention) (out : List WindowRecord)
    (hok : aggregate_food_metrics food_df = .ok out)
    (r : WindowRecord) (hr : r ∈ out) :
    r.velocity = (r.mention_count : ℚ) / (r.window_days : ℚ) ∧
      (r.window_days = 7 ∨ r.window_days = 14 ∨ r.window_days = 30) := by
  obtain ⟨food, -, hmem⟩ := mem_aggregate hok hr
  obtain ⟨h5, days, hdays, hne0, rfl⟩ := mem_food_windows hmem
  exact ⟨rfl, hdays⟩

/-- C9: each item's window reference time is its own latest mention, so the
recent partition is never empty: a qualifying item (at least 5 lifetime
mentions) yields exactly one record per window length — exactly three
records. -/
theorem three_records_c9 (food_df : List Mention) (out : List WindowRecord)
    (hok : aggregate_food_metrics food_df = .ok out) (f : String)
    (h5 : 5 ≤ food_df.countP (fun m => m.food = f)) :
    out.countP (fun r => r.food = f) = 3 := by
  rw [aggregate_food_metrics] at hok
  by_cases he : food_df.isEmpty
  · rw [if_pos he] at hok
    cases hok
  · rw [if_neg he] at hok
    by_cases hm : ((uniqueFoods ((sortMentions food_df).map (·.food))).flatMap
        (fun food => food_windows food
          ((sortMentions food_df).filter (fun m => m.food = food)))).isEmpty
    · rw [if_pos hm] at hok
      cases hok
    · rw [if_neg hm] at hok
      obtain rfl := Except.ok.inj hok
      rw [countP_flatMap]
      have hfmem : f ∈ uniqueFoods ((sortMentions food_df).map (·.food)) := by
        have hpos : 0 < food_df.countP (fun m => m.food = f) := by omega
        obtain ⟨m, hm2, hmf⟩ := List.countP_pos_iff.mp hpos
        refine mem_uniqueFoods.mpr (List.mem_map.mpr ⟨m, ?_, ?_⟩)
        · exact ((List.perm_insertionSort _ food_df).mem_iff).mpr hm2
        · simpa using hmf
      refine sum_single (nodup_uniqueFoods _) hfmem _ ?_ ?_
      · rw [List.countP_eq_length.mpr, food_windows_length]
        · rw [subset_count]
          exact h5
        · intro r hrmem
          simp [food_windows_food hrmem]
      · intro x hx hxf
        rw [List.countP_eq_zero.mpr]
        intro r hrmem
        simp [food_windows_food hrmem, hxf]

/-! ## Trend Scorer & Labeler lemmas -/

/-- The linear-interpolation 0.80 quantile expression over a sorted column is
bounded by any upper bound of the column: it is a convex combination of two
entries (or a single entry when the column has one element). -/
theorem quantile08_le_of_forall_le {s : List ℚ} {M : ℚ} (hne : s ≠ [])
    (hM : ∀ a ∈ s, a ≤ M) :
    (if s.length = 0 then 0
     else s.getD (⌊0.8 * ((s.length : ℚ) - 1)⌋).toNat 0
       + (0.8 * ((s.length : ℚ) - 1) - ((⌊0.8 * ((s.length : ℚ) - 1)⌋).toNat : ℚ))
         * (s.getD ((⌊0.8 * ((s.length : ℚ) - 1)⌋).toNat + 1) 0
             - s.getD (⌊0.8 * ((s.length : ℚ) - 1)⌋).toNat 0)) ≤ M := by
  have hn0 : s.length ≠ 0 := fun h0 => hne (List.length_eq_zero.mp h0)
  rw [if_neg hn0]
  set n := s.length with hn
  set pos : ℚ := 0.8 * ((n : ℚ) - 1) with hpos
  have hn1 : 1 ≤ n := Nat.one_le_iff_ne_zero.mpr hn0
  have hposn : (0 : ℚ) ≤ (n : ℚ) - 1 := by
    have h1 : (1 : ℚ) ≤ (n : ℚ) := by exact_mod_cast hn1
    linarith
  have hpos0 : 0 ≤ pos := by rw [hpos]; nlinarith
  have hfl0 : 0 ≤ ⌊pos⌋ := Int.floor_nonneg.mpr hpos0
  set i : ℕ := (⌊pos⌋).toNat with hi
  have hiz : (i : ℤ) = ⌊pos⌋ := by rw [hi]; exact Int.toNat_of_nonneg hfl0
  have hic : (i : ℚ) = ((⌊pos⌋ : ℤ) : ℚ) := by exact_mod_cast congrArg Int.cast hiz
  have hg0 : 0 ≤ pos - (i : ℚ) := by rw [hic]; linarith [Int.floor_le pos]
  have hg1 : pos - (i : ℚ) ≤ 1 := by rw [hic]; linarith [Int.lt_floor_add_one pos]
  have hpos_le : pos ≤ (n : ℚ) - 1 := by rw [hpos]; nlinarith
  have hi_lt : i < n := by
    have h1 : (i : ℚ) ≤ (n : ℚ) - 1 := by rw [hic]; linarith [Int.floor_le pos]
    have h2 : (i : ℚ) < (n : ℚ) := by linarith
    exact_mod_cast h2
  have hxi : s.getD i 0 ≤ M := by
    rw [List.getD_eq_getElem s 0 (hn ▸ hi_lt)]
    exact hM _ (List.getElem_mem _)
  rcases Nat.lt_or_ge (i + 1) n with hlt | hge
  · have hxi1 : s.getD (i + 1) 0 ≤ M := by
      rw [List.getD_eq_getElem s 0 (hn ▸ hlt)]
      exact hM _ (List.getElem_mem _)
    have hk1 : (pos - (i : ℚ)) * (s.getD (i + 1) 0 - s.getD i 0)
        ≤ (pos - (i : ℚ)) * (M - s.getD i 0) :=
      mul_le_mul_of_nonneg_left (by linarith) hg0
    have hk2 : (pos - (i : ℚ)) * (M - s.getD i 0) ≤ M - s.getD i 0 :=
      mul_le_of_le_one_left (by linarith) hg1
    linarith
  · have hone : n = 1 := by
      by_contra hne1
      have hn2 : 2 ≤ n := by omega
      have h2q : (2 : ℚ) ≤ (n : ℚ) := by exact_mod_cast hn2
      have hlt2 : pos < (n : ℚ) - 1 := by rw [hpos]; nlinarith
      have hflt : ⌊pos⌋ < (n : ℤ) - 1 := by
        rw [Int.floor_lt]
        push_cast
        linarith
      omega
    have hposz : pos = 0 := by
      rw [hpos, hone]
      norm_num
    have hgz : pos - (i : ℚ) = 0 := by
      have hiz0 : i = 0 := by
        have : ⌊pos⌋ = 0 := by rw [hposz]; norm_num
        omega
      rw [hposz, hiz0]
      norm_num
    rw [hgz]
    simpa using hxi

/-- `quantile(0.80)` of a non-empty column never exceeds the column max. -/
theorem quantile08_le_maxQ (l : List ℚ) (h : l ≠ []) : quantile08 l ≤ maxQ l := by
  have hperm := List.perm_insertionSort (fun a b : ℚ => a ≤ b) l
  have hne : List.insertionSort (fun a b : ℚ => a ≤ b) l ≠ [] := by
    intro h0
    apply h
    apply List.length_eq_zero.mp
    rw [← hperm.length_eq, h0, List.length_nil]
  have hfor : ∀ a ∈ List.insertionSort (fun a b : ℚ => a ≤ b) l, a ≤ maxQ l :=
    fun a ha => le_maxQ (hperm.mem_iff.mp ha)
  exact quantile08_le_of_forall_le hne hfor

/-- Re-assigning the `is_trending` column leaves the score column unchanged. -/
theorem labels_scores (metrics : List WindowRecord) :
    (create_trend_labels metrics).map (·.trending_score)
      = (scored_records metrics).map (·.trending_score) := by
  rw [create_trend_labels, List.map_map]
  rfl

/-! ## Claims about the Trend Scorer & Labeler -/

/-- C1: for every set of 7-day Window Metrics Records, each labeled row's
`trending_score` is exactly `0.3`, `0.4`, `0.3` times its velocity, growth
and average-engagement percentile ranks (taken over the full cross-item
7-day population), and `is_trending = 1` exactly when the score is at least
the 0.80 linear-interpolation quantile of all `trending_score`s of the
run. -/
theorem trending_score_c1 (metrics : List WindowRecord) (t : TrendRecord)
    (ht : t ∈ create_trend_labels metrics) :
    t.velocity_percentile
        = rankPct ((metrics.filter (fun r => r.window_days = 7)).map (·.velocity))
            t.base.velocity
  ∧ t.growth_percentile
        = rankPct ((metrics.filter (fun r => r.window_days = 7)).map (·.growth_rate))
            t.base.growth_rate
  ∧ t.engagement_percentile
        = rankPct ((metrics.filter (fun r => r.window_days = 7)).map (·.avg_engagement))
            t.base.avg_engagement
  ∧ t.trending_score
        = t.velocity_percentile * 0.3 + t.growth_percentile * 0.4
            + t.engagement_percentile * 0.3
  ∧ (t.is_trending = 1 ↔
        quantile08 ((create_trend_labels metrics).map (·.trending_score))
          ≤ t.trending_score) := by
  rw [create_trend_labels] at ht
  obtain ⟨t1, ht1, rfl⟩ := List.mem_map.mp ht
  rw [scored_records] at ht1
  obtain ⟨r, hr, rfl⟩ := List.mem_map.mp ht1
  refine ⟨rfl, rfl, rfl, rfl, ?_⟩
  rw [labels_scores]
  show (if trend_threshold metrics ≤ (scored_record (seven_day metrics) r).trending_score
        then 1 else 0) = 1
      ↔ trend_threshold metrics ≤ (scored_record (seven_day metrics) r).trending_score
  by_cases hth : trend_threshold metrics
      ≤ (scored_record (seven_day metrics) r).trending_score
  · simp [hth]
  · simp [hth]

/-- C10: over a non-empty 7-day population, the maximum `trending_score` is
at least the 0.80 linear-interpolation quantile of the scores, so the
labeler always marks at least one item as trending. -/
theorem trending_nonempty_c10 (metrics : List WindowRecord)
    (h7 : metrics.filter (fun r => r.window_days = 7) ≠ []) :
    quantile08 ((create_trend_labels metrics).map (·.trending_score))
        ≤ maxQ ((create_trend_labels metrics).map (·.trending_score))
  ∧ (create_trend_labels metrics).countP (fun t => t.is_trending = 1) ≠ 0 := by
  have hsne : scored_records metrics ≠ [] := by
    intro h0
    rw [scored_records] at h0
    have h1 := List.map_eq_nil_iff.mp h0
    rw [seven_day] at h1
    exact h7 h1
  have hscne : (scored_records metrics).map (·.trending_score) ≠ [] := by
    intro h0
    exact hsne (List.map_eq_nil_iff.mp h0)
  constructor
  · rw [labels_scores]
    exact quantile08_le_maxQ _ hscne
  · obtain ⟨t1, ht1, hts⟩ := List.mem_map.mp (maxQ_mem hscne)
    have hth : trend_threshold metrics ≤ t1.trending_score := by
      have h2 : t1.trending_score
          = maxQ ((scored_records metrics).map (·.trending_score)) := hts
      rw [h2]
      exact quantile08_le_maxQ _ hscne
    have hmem : ({ t1 with is_trending :=
        (if trend_threshold metrics ≤ t1.trending_score then 1 else 0) } : TrendRecord)
        ∈ create_trend_labels metrics := by
      rw [create_trend_labels]
      exact List.mem_map.mpr ⟨t1, ht1, rfl⟩
    have hone : ({ t1 with is_trending :=
        (if trend_threshold metrics ≤ t1.trending_score then 1 else 0) } : TrendRecord).is_trending
        = 1 := by
      simp [hth]
    have hpos : 0 < (create_trend_labels metrics).countP (fun t => t.is_trending = 1) :=
      List.countP_pos_iff.mpr ⟨_, hmem, by simp only [decide_eq_true_eq]; exact hone⟩
    omega

/-! ## Claims about the Engagement Scorer, pipeline, preparer and query path -/

/-- C5: the Engagement Scorer is the pure total function
`score * 1.0 + comments * 2.0 + approval_ratio * 100.0`, both in the
processor (column assignment) and in the utils variant when the approval
ratio is supplied. -/
theorem engagement_c5 (score comments approval_ratio : ℚ) :
    calculate_engagement_score score comments approval_ratio
        = score * 1.0 + comments * 2.0 + approval_ratio * 100.0
  ∧ calculate_engagement_score_utils score comments (some approval_ratio)
        = score * 1.0 + comments * 2.0 + approval_ratio * 100.0 := by
  constructor
  · rw [calculate_engagement_score]
    norm_num
  · rw [calculate_engagement_score_utils]
    norm_num

/-- A document batch entry that mentions no food item at all. -/
def docNoMentions : Doc :=
  { post_id := "p1", subreddit := "food", score := 10, num_comments := 2,
    upvote_ratio := 9/10, created_utc := 0, food_mentions := [] }

/-- C6: an empty fetched batch returns the non-fatal no-result quadruple, but
a non-empty batch in which no document mentions any food item crashes with a
pandas `KeyError` inside `aggregate_food_metrics` (the empty food DataFrame
has no `created_utc` column) instead of signalling `EmptyDataset`. -/
theorem pipeline_empty_c6 :
    process_pipeline [] = .ok none
  ∧ process_pipeline [docNoMentions] = .error .keyError := ⟨rfl, rfl⟩

/-- C7 counterexample: on zero qualifying rows the Feature Preparer does not
report the designed empty-dataset condition — it proceeds into normalization
and the scaler raises its zero-samples `ValueError`. -/
theorem prepare_features_c7_cex :
    prepare_features [] = .error .valueErrorZeroSamples
  ∧ prepare_features [] ≠ .error .emptyDataset := by
  refine ⟨rfl, ?_⟩
  intro h
  have heq : (Except.error PipeError.valueErrorZeroSamples :
      Except PipeError (List (List ℝ) × List ℕ)) = .error .emptyDataset :=
    (rfl : prepare_features [] = .error .valueErrorZeroSamples).symm.trans h
  simp at heq

/-- C7 (amended): on zero qualifying rows the Feature Preparer raises the
normalizer's zero-samples error (not an explicit empty-dataset report); for
positive row counts it returns the normalized matrix with one row per input
row together with the aligned `is_trending` label vector. -/
theorem prepare_features_c7 (metrics : List TrendRecord) :
    (metrics = [] → prepare_features metrics = .error .valueErrorZeroSamples)
  ∧ (metrics ≠ [] →
      (prepare_features metrics).toOption.map (fun p => (p.1.length, p.2))
        = some (metrics.length, metrics.map (·.is_trending))) := by
  constructor
  · intro h
    rw [h]
    rfl
  · intro h
    have hlen : ¬ (List.map (fun t => featureVec t.base) metrics).length = 0 := by
      rw [List.length_map]
      exact fun h0 => h (List.length_eq_zero.mp h0)
    have hstep : prepare_features metrics
        = .ok (standardize (List.map (fun t => featureVec t.base) metrics),
               List.map (fun t => t.is_trending) metrics) := by
      simp only [prepare_features]
      rw [if_neg hlen]
    rw [hstep]
    have hstd : (standardize (List.map (fun t => featureVec t.base) metrics)).length
        = metrics.length := by
      rw [standardize, List.length_map, List.length_map]
    simp [Except.toOption, hstd]

/-- A concrete 7-day metrics row used in witnesses. -/
def sampleSeven : WindowRecord :=
  { food := "ube", window_days := 7, mention_count := 7, avg_score := 1,
    max_score := 1, avg_comments := 1, avg_engagement := 1,
    unique_subreddits := 1, weekend_ratio := 0, velocity := 1, growth_rate := 1,
    avg_upvote_ratio := 1, total_engagement := 7, timestamp := 0 }

/-- The labeled row the labeler produces from `sampleSeven` alone. -/
def sampleTrend : TrendRecord :=
  { base := sampleSeven, velocity_percentile := 1, growth_percentile := 1,
    engagement_percentile := 1, trending_score := 1, is_trending := 1 }

theorem prepare_features_c7_w :
    prepare_features [] = .error .valueErrorZeroSamples
  ∧ (prepare_features [sampleTrend]).toOption.map (fun p => (p.1.length, p.2))
      = some (1, [1]) := by
  refine ⟨(prepare_features_c7 []).1 rfl, ?_⟩
  have h := (prepare_features_c7 [sampleTrend]).2 (by simp)
  simpa [sampleTrend] using h

/-- A post with zero score and comments but maximal approval ratio: the two
engagement formulas disagree on it. -/
def samplePost : Post :=
  { score := 0, num_comments := 0, upvote_ratio := 1, subreddit := "food",
    created_utc := 0 }

/-- C8 counterexample: the single-item query path computes `avg_engagement`
without the `upvote_ratio * 100` term, so it deviates from the batch-path
formula on a field the claim does not allow to deviate. -/
theorem predict_c8_cex :
    (predict_new_food_metrics [samplePost] 30).avg_engagement
      ≠ (window_record "matcha" 30 0
          ([samplePost].map (post_to_mention "matcha")) []).avg_engagement := by
  norm_num [predict_new_food_metrics, window_record, post_to_mention, samplePost,
    meanQ, sumQ, calculate_engagement_score]

/-- C8 (amended): over the same fetched posts, the single-item query record
agrees field-by-field with the batch-path `window_record` formulas on
`mention_count`, `avg_score`, `max_score`, `avg_comments`,
`unique_subreddits`, `velocity` and `avg_upvote_ratio`; `weekend_ratio` and
`growth_rate` are the fixed placeholders `0.5` and `0.1`; and additionally
`avg_engagement` and `total_engagement` deviate, being computed as
`score + num_comments * 2` without the batch path's `upvote_ratio * 100`
term. -/
theorem predict_c8 (posts : List Post) (days_back : ℕ) (food : String)
    (now : ℚ) (older : List Mention) (_hne : posts ≠ []) :
    (predict_new_food_metrics posts days_back).mention_count
        = (window_record food days_back now
            (posts.map (post_to_mention food)) older).mention_count
  ∧ (predict_new_food_metrics posts days_back).avg_score
        = (window_record food days_back now
            (posts.map (post_to_mention food)) older).avg_score
  ∧ (predict_new_food_metrics posts days_back).max_score
        = (window_record food days_back now
            (posts.map (post_to_mention food)) older).max_score
  ∧ (predict_new_food_metrics posts days_back).avg_comments
        = (window_record food days_back now
            (posts.map (post_to_mention food)) older).avg_comments
  ∧ (predict_new_food_metrics posts days_back).unique_subreddits
        = (window_record food days_back now
            (posts.map (post_to_mention food)) older).unique_subreddits
  ∧ (predict_new_food_metrics posts days_back).velocity
        = (window_record food days_back now
            (posts.map (post_to_mention food)) older).velocity
  ∧ (predict_new_food_metrics posts days_back).avg_upvote_ratio
        = (window_record food days_back now
            (posts.map (post_to_mention food)) older).avg_upvote_ratio
  ∧ (predict_new_food_metrics posts days_back).weekend_ratio = 0.5
  ∧ (predict_new_food_metrics posts days_back).growth_rate = 0.1
  ∧ (predict_new_food_metrics posts days_back).avg_engagement
        = meanQ (posts.map (fun p => p.score + p.num_comments * 2))
  ∧ (predict_new_food_metrics posts days_back).total_engagement
        = sumQ (posts.map (·.score)) + sumQ (posts.map (·.num_comments)) * 2 := by
  refine ⟨?_, ?_, ?_, ?_, ?_, ?_, ?_, rfl, rfl, rfl, rfl⟩
  all_goals
    simp [predict_new_food_metrics, window_record, post_to_mention,
      List.map_map, Function.comp_def]


/-! ## Concrete sample runs used by the witnesses -/

/-- A pizza mention (time 4 days after the epoch). -/
def samplePizza : Mention :=
  { food := "pizza", score := 10, num_comments := 2, upvote_ratio := 1,
    engagement_score := 114, created_utc := 4, is_weekend := 0,
    subreddit := "food" }

/-- A kale mention at the same time. -/
def sampleKale : Mention :=
  { food := "kale", score := 3, num_comments := 1, upvote_ratio := 1/2,
    engagement_score := 55, created_utc := 4, is_weekend := 1,
    subreddit := "vegan" }

/-- Five pizza mentions (qualifying) and two kale mentions (below floor). -/
def sampleMentions : List Mention :=
  [samplePizza, samplePizza, samplePizza, samplePizza, samplePizza,
   sampleKale, sampleKale]

/-- The record the aggregator emits for pizza at window length `d`. -/
def samplePizzaRecord (d : ℕ) : WindowRecord :=
  { food := "pizza", window_days := d, mention_count := 5, avg_score := 10,
    max_score := 10, avg_comments := 2, avg_engagement := 114,
    unique_subreddits := 1, weekend_ratio := 0, velocity := 5 / (d : ℚ),
    growth_rate := 1, avg_upvote_ratio := 1, total_engagement := 570,
    timestamp := 4 }

theorem sample_agg_eval :
    aggregate_food_metrics sampleMentions
      = .ok [samplePizzaRecord 7, samplePizzaRecord 14, samplePizzaRecord 30] := by
  have hsort : sortMentions sampleMentions = sampleMentions := by
    simp [sortMentions, sampleMentions, samplePizza, sampleKale,
      List.insertionSort, List.orderedInsert]
  have hfoods : uniqueFoods (sampleMentions.map (·.food)) = ["pizza", "kale"] := by
    simp [uniqueFoods, sampleMentions, samplePizza, sampleKale]
  have hsubp : sampleMentions.filter (fun m => m.food = "pizza")
      = [samplePizza, samplePizza, samplePizza, samplePizza, samplePizza] := by
    simp [sampleMentions, samplePizza, sampleKale]
  have hsubk : sampleMentions.filter (fun m => m.food = "kale")
      = [sampleKale, sampleKale] := by
    simp [sampleMentions, samplePizza, sampleKale]
  have hwp : food_windows "pizza"
      [samplePizza, samplePizza, samplePizza, samplePizza, samplePizza]
      = [samplePizzaRecord 7, samplePizzaRecord 14, samplePizzaRecord 30] := by
    simp [food_windows, window_record, samplePizza, samplePizzaRecord,
      meanQ, sumQ, maxQ]
    norm_num
  have hwk : food_windows "kale" [sampleKale, sampleKale] = [] := by
    simp [food_windows]
  simp only [aggregate_food_metrics, hsort, hfoods, List.flatMap_cons,
    List.flatMap_nil, hsubp, hsubk, hwp, hwk]
  simp [sampleMentions]

theorem min_mentions_c2_w : (samplePizzaRecord 7).food ≠ "kale" :=
  min_mentions_c2 sampleMentions "kale" _ sample_agg_eval
    (by simp [sampleMentions, samplePizza, sampleKale])
    (samplePizzaRecord 7) (by simp)

theorem growth_rate_c3_w :
    (samplePizzaRecord 7).growth_rate =
      if 0 < sampleMentions.countP (fun m => m.food = (samplePizzaRecord 7).food)
          - (samplePizzaRecord 7).mention_count then
        (((samplePizzaRecord 7).mention_count : ℚ)
            - ((sampleMentions.countP (fun m => m.food = (samplePizzaRecord 7).food)
                - (samplePizzaRecord 7).mention_count : ℕ) : ℚ))
          / max ((sampleMentions.countP (fun m => m.food = (samplePizzaRecord 7).food)
                - (samplePizzaRecord 7).mention_count : ℕ) : ℚ) 1
      else 1 :=
  growth_rate_c3 sampleMentions _ sample_agg_eval (samplePizzaRecord 7) (by simp)

theorem velocity_c4_w :
    (samplePizzaRecord 14).velocity
        = ((samplePizzaRecord 14).mention_count : ℚ)
            / ((samplePizzaRecord 14).window_days : ℚ)
      ∧ ((samplePizzaRecord 14).window_days = 7 ∨ (samplePizzaRecord 14).window_days = 14
          ∨ (samplePizzaRecord 14).window_days = 30) :=
  velocity_c4 sampleMentions _ sample_agg_eval (samplePizzaRecord 14) (by simp)

theorem three_records_c9_w :
    ([samplePizzaRecord 7, samplePizzaRecord 14, samplePizzaRecord 30].countP
      (fun r => r.food = "pizza")) = 3 :=
  three_records_c9 sampleMentions _ sample_agg_eval "pizza"
    (by simp [sampleMentions, samplePizza, sampleKale])

theorem sample_labels_eval :
    create_trend_labels [sampleSeven] = [sampleTrend] := by
  have hsev : seven_day [sampleSeven] = [sampleSeven] := by
    simp [seven_day, sampleSeven]
  have hrank : ∀ v : ℚ, rankPct [v] v = 1 := by
    intro v
    simp [rankPct]
  have hsc1 : scored_record [sampleSeven] sampleSeven
      = { sampleTrend with is_trending := 0 } := by
    simp only [scored_record, sampleSeven, sampleTrend]
    norm_num [hrank]
  have hscored : scored_records [sampleSeven]
      = [{ sampleTrend with is_trending := 0 }] := by
    rw [scored_records, hsev, List.map_cons, List.map_nil, hsc1]
  have hq : trend_threshold [sampleSeven] = 1 := by
    rw [trend_threshold, hscored]
    norm_num [sampleTrend, quantile08, List.insertionSort, List.orderedInsert]
  rw [create_trend_labels, hscored, hq]
  simp [sampleTrend]

theorem trending_score_c1_w :
    sampleTrend.velocity_percentile
        = rankPct (([sampleSeven].filter (fun r => r.window_days = 7)).map (·.velocity))
            sampleTrend.base.velocity
  ∧ sampleTrend.growth_percentile
        = rankPct (([sampleSeven].filter (fun r => r.window_days = 7)).map (·.growth_rate))
            sampleTrend.base.growth_rate
  ∧ sampleTrend.engagement_percentile
        = rankPct (([sampleSeven].filter (fun r => r.window_days = 7)).map (·.avg_engagement))
            sampleTrend.base.avg_engagement
  ∧ sampleTrend.trending_score
        = sampleTrend.velocity_percentile * 0.3 + sampleTrend.growth_percentile * 0.4
            + sampleTrend.engagement_percentile * 0.3
  ∧ (sampleTrend.is_trending = 1 ↔
        quantile08 ((create_trend_labels [sampleSeven]).map (·.trending_score))
          ≤ sampleTrend.trending_score) :=
  trending_score_c1 [sampleSeven] sampleTrend
    (by rw [sample_labels_eval]; exact List.mem_cons_self _ _)

theorem trending_nonempty_c10_w :
    quantile08 ((create_trend_labels [sampleSeven]).map (·.trending_score))
        ≤ maxQ ((create_trend_labels [sampleSeven]).map (·.trending_score))
  ∧ (create_trend_labels [sampleSeven]).countP (fun t => t.is_trending = 1) ≠ 0 :=
  trending_nonempty_c10 [sampleSeven] (by simp [sampleSeven])

theorem predict_c8_w :
    (([samplePost] : List Post) ≠ [])
  ∧ ((predict_new_food_metrics [samplePost] 30).mention_count
        = (window_record "matcha" 30 0
            ([samplePost].map (post_to_mention "matcha")) []).mention_count
    ∧ (predict_new_food_metrics [samplePost] 30).avg_score
        = (window_record "matcha" 30 0
            ([samplePost].map (post_to_mention "matcha")) []).avg_score
    ∧ (predict_new_food_metrics [samplePost] 30).max_score
        = (window_record "matcha" 30 0
            ([samplePost].map (post_to_mention "matcha")) []).max_score
    ∧ (predict_new_food_metrics [samplePost] 30).avg_comments
        = (window_record "matcha" 30 0
            ([samplePost].map (post_to_mention "matcha")) []).avg_comments
    ∧ (predict_new_food_metrics [samplePost] 30).unique_subreddits
        = (window_record "matcha" 30 0
            ([samplePost].map (post_to_mention "matcha")) []).unique_subreddits
    ∧ (predict_new_food_metrics [samplePost] 30).velocity
        = (window_record "matcha" 30 0
            ([samplePost].map (post_to_mention "matcha")) []).velocity
    ∧ (predict_new_food_metrics [samplePost] 30).avg_upvote_ratio
        = (window_record "matcha" 30 0
            ([samplePost].map (post_to_mention "matcha")) []).avg_upvote_ratio
    ∧ (predict_new_food_metrics [samplePost] 30).weekend_ratio = 0.5
    ∧ (predict_new_food_metrics [samplePost] 30).growth_rate = 0.1
    ∧ (predict_new_food_metrics [samplePost] 30).avg_engagement
        = meanQ ([samplePost].map (fun p => p.score + p.num_comments * 2))
    ∧ (predict_new_food_metrics [samplePost] 30).total_engagement
        = sumQ ([samplePost].map (·.score)) + sumQ ([samplePost].map (·.num_comments)) * 2) :=
  ⟨List.cons_ne_nil _ _,
   predict_c8 [samplePost] 30 "matcha" 0 [] (List.cons_ne_nil _ _)⟩
